import Mathlib

/-!
Verification of the editor-integration layer in `src/browser/src/Editor/NeovimEditor.tsx`.

The `NeovimEditor` class is a coordination layer: it registers handlers on the
embedded Neovim process, the plugin manager, the keyboard, the window and the
IPC channel, and translates each event into UI store actions and calls on the
neovim instance / renderer / overlays.  We embed it shallowly:

* the class's own mutable fields (`_cursorLine`, `_cursorColumn`,
  `_pendingTimeout`, `_errorStartingNeovim`, `_element`) become the record
  `EditorState`;
* every call to an external object (the `UI.Actions` store, the
  `NeovimInstance`, the `DOMRenderer`, the overlays, `setTimeout`,
  `requestAnimationFrame`, ...) becomes a constructor of the `Effect` trace;
* each event handler becomes a function
  `EditorState → EditorState × List Effect` returning the updated fields and
  the ordered list of external calls the handler performs.

The UI view-state store (`UI/index`, `UI.Actions`, `UI.Selectors`) is not part
of the given sources; for the claims about visibility we interpret the emitted
UI actions into a small view record `UIView`, modelled from the spec.
-/

namespace NeovimEditor

/-- A value returned by the configuration lookup service
(`Config.getValue(key)`).  The editor reads booleans, numbers and strings. -/
inductive ConfigValue where
  | bool (b : Bool)
  | num (n : Int)
  | str (s : String)
deriving Repr, DecidableEq

/-- JavaScript truthiness of a configuration value, used where the TypeScript
code branches on a config value (`if (this._cursorLine)`). -/
def ConfigValue.truthy : ConfigValue → Bool
  | .bool b => b
  | .num n => n ≠ 0
  | .str s => s ≠ ""

/-- The configuration lookup service: `getValue` keyed by string. -/
def Config : Type := String → ConfigValue

/-- A log entry passed to `UI.Actions.makeLog` (`type`, `message`, `details`). -/
structure LogEntry where
  type : String
  message : String
  details : Option (List String)
deriving Repr, DecidableEq

/-- A JavaScript `Error` as consumed by the `logError` handler. -/
structure JsError where
  message : String
  stack : String
deriving Repr, DecidableEq

/-- The DOM element hosting the editor (only the fields the class reads). -/
structure Element where
  offsetWidth : Int
  offsetHeight : Int
deriving Repr, DecidableEq

/-- One call to an external object performed by a handler, in program order.
Constructors are named after the call they stand for:
`ui*` are `UI.Actions.*`, `neovim*` are calls on the `NeovimInstance`,
`renderer*` on the `DOMRenderer`, and so on. -/
inductive Effect where
  | uiSetMode (mode : String)
  | uiSetColors
  | uiShowSignatureHelp
  | uiHideSignatureHelp
  | uiHideCompletions
  | uiNextCompletion
  | uiPreviousCompletion
  | uiHidePopupMenu
  | uiSelectMenuItem (openInSplit : Bool)
  | uiNextMenuItem
  | uiPreviousMenuItem
  | uiHideQuickInfo
  | uiShowCursorLine
  | uiHideCursorLine
  | uiShowCursorColumn
  | uiHideCursorColumn
  | uiSetCursorLineOpacity (v : ConfigValue)
  | uiSetCursorColumnOpacity (v : ConfigValue)
  | uiSetCursorPosition
  | uiMakeLog (entry : LogEntry)
  | renderInstallHelp
  | neovimStart (files : List String)
  | neovimInput (key : String)
  | neovimCommand (cmd : String)
  | neovimResize (w h : Int)
  | neovimSetFont (family size : ConfigValue)
  | neovimGetCwdThenChdir
  | rendererOnAction
  | rendererUpdate
  | rendererOnResize
  | screenDispatch
  | dirtyAllCells
  | cleanUpRenderedCells
  | scheduleTimeout
  | clearPendingTimeout
  | scheduleAnimationFrame
  | formatBuffer
  | autoCompletionComplete
  | executeCommand (cmd : String)
  | quickOpenShow
  | tasksShow
  | focusPreviousInstance
  | focusNextInstance
  | errorOverlayVimEvent (name : String)
  | liveEvalOverlayVimEvent (name : String)
  | scrollbarOverlayVimEvent (name : String)
  | tasksOnEvent
  | errorOverlayHideDetails
  | errorOverlayShowDetails
deriving Repr, DecidableEq

/-- The mutable fields of the `NeovimEditor` class. -/
structure EditorState where
  cursorLine : Bool
  cursorColumn : Bool
  pendingTimeout : Bool
  errorStartingNeovim : Bool
  element : Option Element
deriving Repr, DecidableEq

/-- Field initialisers of the class (`_cursorLine = false`, `_cursorColumn =
false`, `_pendingTimeout = null`, `_errorStartingNeovim = false`; `_element`
is unset until `render` is called). -/
def initialState : EditorState :=
  { cursorLine := false
    cursorColumn := false
    pendingTimeout := false
    errorStartingNeovim := false
    element := none }

/-- Handler for the `"error"` event of the neovim instance: records that
startup failed and renders the static `InstallHelp` component into the host
element's parent. -/
def onError (s : EditorState) : EditorState × List Effect :=
  ({ s with errorStartingNeovim := true }, [Effect.renderInstallHelp])

/-- Handler for the `"logInfo"` event: `UI.Actions.makeLog` with type
`"info"`, the message, and `null` details. -/
def onLogInfo (info : String) (s : EditorState) : EditorState × List Effect :=
  (s, [Effect.uiMakeLog { type := "info", message := info, details := none }])

/-- Handler for the `"logWarning"` event: `UI.Actions.makeLog` with type
`"warning"`, the message, and `null` details. -/
def onLogWarning (warning : String) (s : EditorState) : EditorState × List Effect :=
  (s, [Effect.uiMakeLog { type := "warning", message := warning, details := none }])

/-- Handler for the `"logError"` event: `UI.Actions.makeLog` with type
`"error"`, the error's message, and the stack split on newlines as details. -/
def onLogError (err : JsError) (s : EditorState) : EditorState × List Effect :=
  (s, [Effect.uiMakeLog
        { type := "error", message := err.message,
          details := some (err.stack.splitOn "\n") }])

/-- Truthiness of the nullable error string of the
`signature-help-response` callback (`if (err)`). -/
def errTruthy : Option String → Bool
  | none => false
  | some e => e ≠ ""

/-- Handler for the plugin manager's `"signature-help-response"` event:
on a truthy error it hides the signature help, otherwise it shows it. -/
def onSignatureHelpResponse (err : Option String) (s : EditorState) :
    EditorState × List Effect :=
  if errTruthy err then
    (s, [Effect.uiHideSignatureHelp])
  else
    (s, [Effect.uiShowSignatureHelp])

/-- Handler for the `"action"` event: forwards the action to the renderer and
the screen, publishes the screen colors, and — only when no update timeout is
already pending — schedules `_onUpdate` via `setTimeout(..., 0)`. -/
def onAction (s : EditorState) : EditorState × List Effect :=
  let pre := [Effect.rendererOnAction, Effect.screenDispatch, Effect.uiSetColors]
  if s.pendingTimeout then
    (s, pre)
  else
    ({ s with pendingTimeout := true }, pre ++ [Effect.scheduleTimeout])

/-- `_onUpdate`: publishes the cursor position, then clears the pending
timeout when one exists. -/
def onUpdate (s : EditorState) : EditorState × List Effect :=
  if s.pendingTimeout then
    ({ s with pendingTimeout := false },
      [Effect.uiSetCursorPosition, Effect.clearPendingTimeout])
  else
    (s, [Effect.uiSetCursorPosition])

/-- `_onModeChanged`: publishes the new mode, then branches on
`"normal"`, `"insert"` and `"cmdline"`, and finally toggles the error
overlay details. -/
def onModeChanged (newMode : String) (s : EditorState) : EditorState × List Effect :=
  let head := [Effect.uiSetMode newMode]
  let branch :=
    if newMode = "normal" then
      (if s.cursorLine then [Effect.uiShowCursorLine] else []) ++
      (if s.cursorColumn then [Effect.uiShowCursorColumn] else []) ++
      [Effect.uiHideCompletions, Effect.uiHideSignatureHelp]
    else if newMode = "insert" then
      [Effect.uiHideQuickInfo] ++
      (if s.cursorLine then [Effect.uiShowCursorLine] else []) ++
      (if s.cursorColumn then [Effect.uiShowCursorColumn] else [])
    else if newMode = "cmdline" then
      [Effect.uiHideCursorColumn, Effect.uiHideCursorLine,
       Effect.uiHideCompletions, Effect.uiHideQuickInfo]
    else []
  let overlay :=
    if newMode = "insert" then [Effect.errorOverlayHideDetails]
    else [Effect.errorOverlayShowDetails]
  (s, head ++ branch ++ overlay)

/-- `_onVimEvent`: forwards the event to the three overlays and the task
service, then hides the popup UI on `"BufEnter"` and changes directory on
`"DirChanged"`. -/
def onVimEvent (eventName : String) (s : EditorState) : EditorState × List Effect :=
  let forward :=
    [Effect.errorOverlayVimEvent eventName,
     Effect.liveEvalOverlayVimEvent eventName,
     Effect.scrollbarOverlayVimEvent eventName,
     Effect.tasksOnEvent]
  let bufEnter :=
    if eventName = "BufEnter" then
      [Effect.uiHideCompletions, Effect.uiHidePopupMenu,
       Effect.uiHideSignatureHelp, Effect.uiHideQuickInfo]
    else []
  let dirChanged :=
    if eventName = "DirChanged" then [Effect.neovimGetCwdThenChdir] else []
  (s, forward ++ bufEnter ++ dirChanged)

/-- `_onConfigChanged`: re-reads the cursor-line/column flags, publishes the
opacities, shows the cursor line/column when the flags are truthy, re-applies
the font to the neovim instance, and runs `_onUpdate`. -/
def onConfigChanged (config : Config) (s : EditorState) : EditorState × List Effect :=
  let cl := (config "editor.cursorLine").truthy
  let cc := (config "editor.cursorColumn").truthy
  let s1 := { s with cursorLine := cl, cursorColumn := cc }
  let opacities :=
    [Effect.uiSetCursorLineOpacity (config "editor.cursorLineOpacity"),
     Effect.uiSetCursorColumnOpacity (config "editor.cursorColumnOpacity")]
  let showLine := if cl then [Effect.uiShowCursorLine] else []
  let showCol := if cc then [Effect.uiShowCursorColumn] else []
  let font :=
    [Effect.neovimSetFont (config "editor.fontFamily") (config "editor.fontSize")]
  let upd := onUpdate s1
  (upd.1, opacities ++ showLine ++ showCol ++ font ++ upd.2)

/-- `_onResize`: when a host element is attached, reads its current pixel
size, dirties all cells, resizes the neovim instance and notifies the
renderer; otherwise it does nothing. -/
def onResize (s : EditorState) : EditorState × List Effect :=
  match s.element with
  | some el =>
      (s, [Effect.dirtyAllCells,
           Effect.neovimResize el.offsetWidth el.offsetHeight,
           Effect.rendererOnResize])
  | none => (s, [])

/-- `_render`: publishes the cursor position when an update is pending,
updates the renderer from the screen and the delta-region tracker, cleans up
rendered cells, and schedules itself on the next animation frame. -/
def renderStep (s : EditorState) : EditorState × List Effect :=
  let cursor := if s.pendingTimeout then [Effect.uiSetCursorPosition] else []
  (s, cursor ++
      [Effect.rendererUpdate, Effect.cleanUpRenderedCells,
       Effect.scheduleAnimationFrame])

/-- `init(filesToOpen)`: starts the neovim instance with the given files. -/
def init (filesToOpen : List String) (s : EditorState) : EditorState × List Effect :=
  (s, [Effect.neovimStart filesToOpen])

/-- The `keydown` handler.  `popupMenuOpen` and `completionsVisible` are the
values of the `UI.Selectors` reads, and `screenMode` is `this._screen.mode`;
all three are external reads of the moment of the event. -/
def onKeydown (key : String) (popupMenuOpen completionsVisible : Bool)
    (screenMode : String) (s : EditorState) : EditorState × List Effect :=
  if key = "<f3>" then (s, [Effect.formatBuffer])
  else if popupMenuOpen then
    if key = "<esc>" then (s, [Effect.uiHidePopupMenu])
    else if key = "<enter>" then (s, [Effect.uiSelectMenuItem false])
    else if key = "<C-v>" then (s, [Effect.uiSelectMenuItem true])
    else if key = "<C-n>" then (s, [Effect.uiNextMenuItem])
    else if key = "<C-p>" then (s, [Effect.uiPreviousMenuItem])
    else (s, [])
  else if completionsVisible && key = "<enter>" then
    (s, [Effect.autoCompletionComplete])
  else if completionsVisible && key = "<C-n>" then
    (s, [Effect.uiNextCompletion])
  else if completionsVisible && key = "<C-p>" then
    (s, [Effect.uiPreviousCompletion])
  else if key = "<f12>" then
    (s, [Effect.executeCommand "oni.editor.gotoDefinition"])
  else if key = "<C-p>" && screenMode = "normal" then
    (s, [Effect.quickOpenShow])
  else if key = "<C-P>" && screenMode = "normal" then
    (s, [Effect.tasksShow])
  else if key = "<C-pageup>" then
    (s, [Effect.focusPreviousInstance])
  else if key = "<C-pagedown>" then
    (s, [Effect.focusNextInstance])
  else
    (s, [Effect.neovimInput key])

/-- JavaScript `String.prototype.startsWith`, as a prefix test on the
character sequence (kept kernel-reducible). -/
def jsStartsWith (m pre : String) : Bool :=
  pre.data.isPrefixOf m.data

/-- The `ipcRenderer` `menu-item-click` handler: a message starting with
`":"` runs as an ex command, anything else as a normal-mode command. -/
def onMenuItemClick (message : String) (s : EditorState) : EditorState × List Effect :=
  if jsStartsWith message ":" then
    (s, [Effect.neovimCommand ("exec \"" ++ message ++ "\"")])
  else
    (s, [Effect.neovimCommand ("exec \":normal! " ++ message ++ "\"")])

/-- Modelled from the spec: the UI view-state store (`UI/index` is not among
the given sources).  The spec describes overlays that are "hidden" and
cursor-line/column "visibility"; each `UI.Actions` show/hide action sets the
corresponding visibility flag. -/
structure UIView where
  popupMenuOpen : Bool
  completionsVisible : Bool
  signatureHelpVisible : Bool
  quickInfoVisible : Bool
  cursorLineVisible : Bool
  cursorColumnVisible : Bool
deriving Repr, DecidableEq

/-- Modelled from the spec: effect of one UI store action on the view;
non-UI effects and UI actions without a visibility meaning leave it
unchanged. -/
def UIView.apply (v : UIView) : Effect → UIView
  | .uiHidePopupMenu => { v with popupMenuOpen := false }
  | .uiHideCompletions => { v with completionsVisible := false }
  | .uiShowSignatureHelp => { v with signatureHelpVisible := true }
  | .uiHideSignatureHelp => { v with signatureHelpVisible := false }
  | .uiHideQuickInfo => { v with quickInfoVisible := false }
  | .uiShowCursorLine => { v with cursorLineVisible := true }
  | .uiHideCursorLine => { v with cursorLineVisible := false }
  | .uiShowCursorColumn => { v with cursorColumnVisible := true }
  | .uiHideCursorColumn => { v with cursorColumnVisible := false }
  | _ => v

/-- Apply a handler's effect list to the view, in order. -/
def UIView.applyAll (v : UIView) (es : List Effect) : UIView :=
  es.foldl UIView.apply v

/-- Is this effect a `UI.Actions.makeLog` call? -/
def Effect.isMakeLog : Effect → Bool
  | .uiMakeLog _ => true
  | _ => false

/-- Is this effect an `input` call on the neovim instance? -/
def Effect.isNeovimInput : Effect → Bool
  | .neovimInput _ => true
  | _ => false

/-- Is this effect a `setTimeout` scheduling of `_onUpdate`? -/
def Effect.isScheduleTimeout : Effect → Bool
  | .scheduleTimeout => true
  | _ => false

/-- Number of update timeouts scheduled in a trace. -/
def countTimeouts (es : List Effect) : Nat :=
  (es.filter Effect.isScheduleTimeout).length

/-- Run the `"action"` handler `n` times in sequence, concatenating the
emitted effects. -/
def runActions (s : EditorState) : Nat → EditorState × List Effect
  | 0 => (s, [])
  | n + 1 =>
      let first := onAction s
      let rest := runActions first.1 n
      (rest.1, first.2 ++ rest.2)

end NeovimEditor

namespace NeovimEditor

/-- Claim C1: every `"error"` event from the embedded editor process is
handled by rendering the static install-help screen and recording that
startup failed, and this is the only editor-process failure event with
dedicated handling: the `logInfo` / `logWarning` / `logError` handlers only
emit a log entry and change no state. -/
theorem error_event_dedicated_handling (s : EditorState)
    (info warning : String) (err : JsError) :
    (onError s).1.errorStartingNeovim = true ∧
    (onError s).2 = [Effect.renderInstallHelp] ∧
    (onLogInfo info s).1 = s ∧ (onLogInfo info s).2.all Effect.isMakeLog = true ∧
    (onLogWarning warning s).1 = s ∧
    (onLogWarning warning s).2.all Effect.isMakeLog = true ∧
    (onLogError err s).1 = s ∧ (onLogError err s).2.all Effect.isMakeLog = true :=
  ⟨rfl, rfl, rfl, rfl, rfl, rfl, rfl, rfl⟩

/-- Claim C2: the `"BufEnter"` vim-event handler hides the completion popup,
the popup menu and the signature-help overlay, whatever their prior
visibility. -/
theorem bufenter_hides_overlays (v : UIView) (s : EditorState) :
    (v.applyAll (onVimEvent "BufEnter" s).2).completionsVisible = false ∧
    (v.applyAll (onVimEvent "BufEnter" s).2).popupMenuOpen = false ∧
    (v.applyAll (onVimEvent "BufEnter" s).2).signatureHelpVisible = false :=
  ⟨rfl, rfl, rfl⟩

end NeovimEditor

namespace NeovimEditor

/-- A configuration answering `true` to every key. -/
def configAllOn : Config := fun _ => ConfigValue.bool true

/-- A configuration answering `false` to every key. -/
def configAllOff : Config := fun _ => ConfigValue.bool false

/-- Sequential composition of two handler runs: feed the state through and
concatenate the effect traces. -/
def thenRun (r : EditorState × List Effect)
    (f : EditorState → EditorState × List Effect) : EditorState × List Effect :=
  let next := f r.1
  (next.1, r.2 ++ next.2)

/-- A view with nothing visible, as before any show action. -/
def emptyView : UIView :=
  { popupMenuOpen := false
    completionsVisible := false
    signatureHelpVisible := false
    quickInfoVisible := false
    cursorLineVisible := false
    cursorColumnVisible := false }

/-- The run refuting claim C3: from the initial state, a config change with
`editor.cursorLine` true (which shows the cursor line), then a config change
with it false (which does not hide it), then a mode change to `"insert"`. -/
def c3Run : EditorState × List Effect :=
  thenRun (thenRun (onConfigChanged configAllOn initialState)
      (onConfigChanged configAllOff))
    (onModeChanged "insert")

/-- Claim C3 counterexample: after the run `c3Run` the mode-change-to-insert
handler leaves the cursor line (and column) visible although the
`editor.cursorLine` (resp. `editor.cursorColumn`) flag is `false` — so on
this mode-change event visibility is not equivalent to the flag. -/
theorem insert_mode_visibility_iff_counterexample :
    c3Run.1.cursorLine = false ∧ c3Run.1.cursorColumn = false ∧
    (emptyView.applyAll c3Run.2).cursorLineVisible = true ∧
    (emptyView.applyAll c3Run.2).cursorColumnVisible = true :=
  ⟨rfl, rfl, rfl, rfl⟩

/-- Claim C3 as amended: on a mode-change to `"insert"`, the cursor line
(resp. column) is shown when the flag is true, and its visibility is left
unchanged when the flag is false: afterwards it is visible iff the flag is
true or it was already visible. -/
theorem insert_mode_visibility_follows_flags (s : EditorState) (v : UIView) :
    (v.applyAll (onModeChanged "insert" s).2).cursorLineVisible
      = (s.cursorLine || v.cursorLineVisible) ∧
    (v.applyAll (onModeChanged "insert" s).2).cursorColumnVisible
      = (s.cursorColumn || v.cursorColumnVisible) := by
  rcases s with ⟨cl, cc, pt, er, el⟩
  cases cl <;> cases cc <;> exact ⟨rfl, rfl⟩

/-- Claim C4 counterexample: the plugin manager's `signature-help-response`
handler, on a truthy error, emits only a hide-signature-help action and no
log entry — an error path that bypasses the UI log. -/
theorem signature_help_error_bypasses_log :
    (onSignatureHelpResponse (some "error") initialState).2
      = [Effect.uiHideSignatureHelp] ∧
    ((onSignatureHelpResponse (some "error") initialState).2.filter
      Effect.isMakeLog) = [] :=
  ⟨rfl, rfl⟩

/-- Claim C4 as amended: each `logInfo` / `logWarning` / `logError` event
produces exactly one log entry of the corresponding type, but the
`signature-help-response` error path hides the signature-help overlay
without producing any log entry. -/
theorem log_events_make_log_entries (s : EditorState)
    (info warning : String) (err : JsError) (e : Option String) :
    (onLogInfo info s).2
      = [Effect.uiMakeLog { type := "info", message := info, details := none }] ∧
    (onLogWarning warning s).2
      = [Effect.uiMakeLog { type := "warning", message := warning, details := none }] ∧
    (onLogError err s).2
      = [Effect.uiMakeLog { type := "error", message := err.message,
                            details := some (err.stack.splitOn "\n") }] ∧
    (errTruthy e = true →
      (onSignatureHelpResponse e s).2 = [Effect.uiHideSignatureHelp]) := by
  refine ⟨rfl, rfl, rfl, fun h => ?_⟩
  simp [onSignatureHelpResponse, h]

/-- Witness for the amended claim C4 at a concrete truthy error. -/
theorem log_events_make_log_entries_witness :
    (onSignatureHelpResponse (some "boom") initialState).2
      = [Effect.uiHideSignatureHelp] :=
  (log_events_make_log_entries initialState "i" "w" ⟨"m", "st"⟩
    (some "boom")).2.2.2 rfl

/-- Claim C5: every invocation of the render step updates the renderer
(from the screen and the delta-region tracker), cleans up rendered cells,
changes no editor field, and unconditionally ends by scheduling itself on
the next animation frame. -/
theorem render_loop_reschedules_every_frame (s : EditorState) :
    (renderStep s).1 = s ∧
    Effect.rendererUpdate ∈ (renderStep s).2 ∧
    Effect.cleanUpRenderedCells ∈ (renderStep s).2 ∧
    (renderStep s).2.getLast? = some Effect.scheduleAnimationFrame := by
  rcases s with ⟨cl, cc, pt, er, el⟩
  cases pt <;> refine ⟨rfl, ?_, ?_, rfl⟩ <;> simp [renderStep]

/-- Claim C6: `init(filesToOpen)` starts the embedded editor process with
exactly the given file list, and, when a host element is attached, a resize
dirties all screen cells and then forwards the element's current pixel width
and height to the editor process's resize (then notifies the renderer). -/
theorem init_and_resize_forwarding (files : List String) (s : EditorState)
    (el : Element) (h : s.element = some el) :
    (init files s).2 = [Effect.neovimStart files] ∧
    (onResize s).2 = [Effect.dirtyAllCells,
                      Effect.neovimResize el.offsetWidth el.offsetHeight,
                      Effect.rendererOnResize] := by
  refine ⟨rfl, ?_⟩
  unfold onResize
  rw [h]

/-- Witness for claim C6 at a concrete element size and file list. -/
theorem init_and_resize_forwarding_witness :
    (init ["a.txt", "b.txt"]
        { initialState with element := some ⟨640, 480⟩ }).2
      = [Effect.neovimStart ["a.txt", "b.txt"]] ∧
    (onResize { initialState with element := some ⟨640, 480⟩ }).2
      = [Effect.dirtyAllCells, Effect.neovimResize 640 480,
         Effect.rendererOnResize] :=
  init_and_resize_forwarding ["a.txt", "b.txt"]
    { initialState with element := some ⟨640, 480⟩ } ⟨640, 480⟩ rfl

/-- Claim C7: on every configuration change the handler re-reads the
cursor-line/column opacities and the font family and size from the
configuration lookup and applies them (opacities to the UI, font to the
editor process). -/
theorem config_change_reapplies_values (config : Config) (s : EditorState) :
    Effect.uiSetCursorLineOpacity (config "editor.cursorLineOpacity")
      ∈ (onConfigChanged config s).2 ∧
    Effect.uiSetCursorColumnOpacity (config "editor.cursorColumnOpacity")
      ∈ (onConfigChanged config s).2 ∧
    Effect.neovimSetFont (config "editor.fontFamily") (config "editor.fontSize")
      ∈ (onConfigChanged config s).2 := by
  refine ⟨?_, ?_, ?_⟩ <;> simp [onConfigChanged]

end NeovimEditor

namespace NeovimEditor

/-- `countTimeouts` distributes over trace concatenation. -/
theorem countTimeouts_append (a b : List Effect) :
    countTimeouts (a ++ b) = countTimeouts a + countTimeouts b := by
  simp [countTimeouts]

/-- While an update timeout is pending, further `"action"` events neither
change the state nor schedule another timeout, however many arrive. -/
theorem runActions_pending_true : ∀ (n : Nat) (s : EditorState),
    s.pendingTimeout = true →
    (runActions s n).1 = s ∧ countTimeouts (runActions s n).2 = 0
  | 0, _, _ => ⟨rfl, rfl⟩
  | n + 1, s, h => by
    have hA : onAction s
        = (s, [Effect.rendererOnAction, Effect.screenDispatch,
               Effect.uiSetColors]) := by
      simp [onAction, h]
    obtain ⟨h1, h2⟩ := runActions_pending_true n s h
    rw [runActions, hA]
    refine ⟨h1, ?_⟩
    rw [countTimeouts_append, h2]
    rfl

end NeovimEditor

namespace NeovimEditor

/-- Claim C8: at most one update timeout is pending at any time — an
`"action"` event schedules the deferred update only when none is pending,
`_onUpdate` always finishes with no pending timeout, and any run of one or
more consecutive `"action"` events starting with no pending timeout
schedules exactly one timeout. -/
theorem pending_timeout_coalescing (s : EditorState) (n : Nat) :
    (s.pendingTimeout = true →
      (onAction s).1 = s ∧ countTimeouts (onAction s).2 = 0) ∧
    (onUpdate s).1.pendingTimeout = false ∧
    (s.pendingTimeout = false →
      countTimeouts (runActions s (n + 1)).2 = 1 ∧
      (runActions s (n + 1)).1.pendingTimeout = true) := by
  refine ⟨fun h => ?_, ?_, fun h => ?_⟩
  · simp [onAction, h, countTimeouts, Effect.isScheduleTimeout]
  · rcases s with ⟨cl, cc, pt, er, el⟩
    cases pt <;> rfl
  · have hA : onAction s
        = ({ s with pendingTimeout := true },
           [Effect.rendererOnAction, Effect.screenDispatch, Effect.uiSetColors,
            Effect.scheduleTimeout]) := by
      simp [onAction, h]
    obtain ⟨h1, h2⟩ :=
      runActions_pending_true n { s with pendingTimeout := true } rfl
    rw [runActions, hA]
    refine ⟨?_, ?_⟩
    · rw [countTimeouts_append, h2]
      rfl
    · rw [h1]

end NeovimEditor

namespace NeovimEditor

/-- Witness for claim C8: with a pending timeout a concrete action schedules
nothing; from the initial state three consecutive actions schedule exactly
one update timeout. -/
theorem pending_timeout_coalescing_witness :
    countTimeouts (onAction { initialState with pendingTimeout := true }).2 = 0 ∧
    countTimeouts (runActions initialState 3).2 = 1 :=
  ⟨((pending_timeout_coalescing { initialState with pendingTimeout := true } 0).1
      rfl).2,
   ((pending_timeout_coalescing initialState 2).2.2 rfl).1⟩

/-- Claim C9: while the popup menu is open, no key is forwarded as input to
the embedded editor process; `<f3>` triggers buffer formatting, the five
menu keys act on the menu, and every other key leaves the state unchanged
and performs no call at all. -/
theorem popup_menu_swallows_keys (key : String) (cv : Bool) (mode : String)
    (s : EditorState) :
    ((onKeydown key true cv mode s).2.filter Effect.isNeovimInput = []) ∧
    (onKeydown "<f3>" true cv mode s).2 = [Effect.formatBuffer] ∧
    (onKeydown "<esc>" true cv mode s).2 = [Effect.uiHidePopupMenu] ∧
    (onKeydown "<enter>" true cv mode s).2 = [Effect.uiSelectMenuItem false] ∧
    (onKeydown "<C-v>" true cv mode s).2 = [Effect.uiSelectMenuItem true] ∧
    (onKeydown "<C-n>" true cv mode s).2 = [Effect.uiNextMenuItem] ∧
    (onKeydown "<C-p>" true cv mode s).2 = [Effect.uiPreviousMenuItem] ∧
    (key ≠ "<f3>" → key ≠ "<esc>" → key ≠ "<enter>" → key ≠ "<C-v>" →
      key ≠ "<C-n>" → key ≠ "<C-p>" →
      onKeydown key true cv mode s = (s, [])) := by
  refine ⟨?_, rfl, rfl, rfl, rfl, rfl, rfl, ?_⟩
  · by_cases h1 : key = "<f3>"
    · subst h1; rfl
    by_cases h2 : key = "<esc>"
    · subst h2; rfl
    by_cases h3 : key = "<enter>"
    · subst h3; rfl
    by_cases h4 : key = "<C-v>"
    · subst h4; rfl
    by_cases h5 : key = "<C-n>"
    · subst h5; rfl
    by_cases h6 : key = "<C-p>"
    · subst h6; rfl
    simp [onKeydown, h1, h2, h3, h4, h5, h6]
  · intro h1 h2 h3 h4 h5 h6
    simp [onKeydown, h1, h2, h3, h4, h5, h6]

/-- Witness for claim C9: with the popup menu open, the ordinary key `"j"`
is consumed without any effect. -/
theorem popup_menu_swallows_keys_witness :
    onKeydown "j" true false "normal" initialState = (initialState, []) :=
  (popup_menu_swallows_keys "j" false "normal" initialState).2.2.2.2.2.2.2
    (by decide) (by decide) (by decide) (by decide) (by decide) (by decide)

/-- Claim C10: a menu-item-click message starting with `":"` is executed as
an ex command (`exec` of the message itself), and any other message as a
normal-mode command (`exec` of `":normal! "` followed by the message). -/
theorem menu_item_click_dispatch (message : String) (s : EditorState) :
    (jsStartsWith message ":" = true →
      (onMenuItemClick message s).2
        = [Effect.neovimCommand ("exec \"" ++ message ++ "\"")]) ∧
    (jsStartsWith message ":" = false →
      (onMenuItemClick message s).2
        = [Effect.neovimCommand ("exec \":normal! " ++ message ++ "\"")]) := by
  constructor <;> intro h <;> simp [onMenuItemClick, h]

/-- Witness for claim C10 at the concrete messages `":wq"` and `"gg"`. -/
theorem menu_item_click_dispatch_witness :
    (onMenuItemClick ":wq" initialState).2
      = [Effect.neovimCommand "exec \":wq\""] ∧
    (onMenuItemClick "gg" initialState).2
      = [Effect.neovimCommand "exec \":normal! gg\""] :=
  ⟨(menu_item_click_dispatch ":wq" initialState).1 (by decide),
   (menu_item_click_dispatch "gg" initialState).2 (by decide)⟩

end NeovimEditor
